import Mathlib

/-!
Verification development for `src/scripts/lambda-update-nodegroup.py`:
an AWS Lambda handler that checks whether an EKS managed node group runs
the recommended AMI release version for its Kubernetes version and, if
not, initiates a non-disruptive node-group update.

The handler is embedded shallowly: the three remote calls
(`eks.describe_nodegroup`, `ssm.get_parameter`,
`eks.update_nodegroup_version`) are modelled by a `World` record that
fixes each call's outcome, exceptions are modelled as data, and the
handler is a total Lean function returning the structured result
together with a `Trace` of which remote calls were issued and with
which arguments.
-/

/-- The Lambda environment variables read by the handler:
`CLUSTER_NAME`, `NODEGROUP_NAME`, `AWS_REGION`. `none` models an unset
variable; `some ""` models a variable set to the empty string. -/
structure Env where
  CLUSTER_NAME : Option String
  NODEGROUP_NAME : Option String
  AWS_REGION : Option String
deriving Repr, DecidableEq

/-- The node-group snapshot returned by `eks.describe_nodegroup`:
`nodegroup['version']` (Kubernetes version) and the optional
`nodegroup['releaseVersion']` field (the code reads it with
`.get('releaseVersion', 'unknown')`). -/
structure Nodegroup where
  version : String
  releaseVersion : Option String
deriving Repr, DecidableEq

/-- A botocore `ClientError`, carrying `e.response['Error']['Code']`
and `e.response['Error']['Message']`. -/
structure ClientErr where
  code : String
  message : String
deriving Repr, DecidableEq

/-- Outcome of the `eks.describe_nodegroup` call: success, a
`ClientError`, or any other exception (modelled by its string form). -/
inductive DescribeResult where
  | ok (ng : Nodegroup)
  | clientError (e : ClientErr)
  | otherError (msg : String)
deriving Repr, DecidableEq

/-- Outcome of the `ssm.get_parameter` call: success with the parameter
value, the `ParameterNotFound` exception, another `ClientError`, or any
other exception. -/
inductive SsmResult where
  | ok (value : String)
  | parameterNotFound
  | clientError (e : ClientErr)
  | otherError (msg : String)
deriving Repr, DecidableEq

/-- Outcome of the `eks.update_nodegroup_version` call: success with
`update_response['update']['id']`, a `ClientError`, or any other
exception. -/
inductive UpdateResult where
  | ok (updateId : String)
  | clientError (e : ClientErr)
  | otherError (msg : String)
deriving Repr, DecidableEq

/-- The fixed outcomes of the three remote calls for one invocation.
A call's outcome is only observed if the handler actually issues it. -/
structure World where
  describe : DescribeResult
  lookup : SsmResult
  update : UpdateResult
deriving Repr, DecidableEq

/-- The body passed to `json.dumps` in a returned result: either a
plain string or the dict `{'message': ..., 'updateId': ...}` built on
the update-initiated path. -/
inductive Body where
  | str (s : String)
  | obj (message : String) (updateId : String)
deriving Repr, DecidableEq

/-- The structured result dict returned by the handler:
`{'statusCode': ..., 'body': json.dumps(...)}`. -/
structure LambdaResult where
  statusCode : Nat
  body : Body
deriving Repr, DecidableEq

/-- Arguments of an issued `eks.update_nodegroup_version` call. The
code never passes the `version` (Kubernetes version) keyword, so
`kubernetesVersion` is `none` for the call it builds. -/
structure UpdateArgs where
  clusterName : String
  nodegroupName : String
  releaseVersion : String
  force : Bool
  kubernetesVersion : Option String
deriving Repr, DecidableEq

/-- Record of the remote calls issued during one invocation, and of the
region the boto3 clients were initialized with (if they were). -/
structure Trace where
  describeCalled : Bool
  ssmCalled : Bool
  updateCalls : List UpdateArgs
  regionUsed : Option String
deriving Repr, DecidableEq

/-- Python truthiness of `os.environ.get(...)`: `None` and the empty
string are falsy, every other string is truthy. -/
def pyTruthy : Option String → Bool
  | none => false
  | some s => !(s == "")

/-- `os.environ.get('AWS_REGION', 'us-west-2')`: the region with the
fixed fallback substituted when the variable is unset. -/
def regionOf (env : Env) : String :=
  env.AWS_REGION.getD "us-west-2"

/-- The guard `all([cluster_name, nodegroup_name, region])` evaluated
on the three values the handler reads (region already defaulted). -/
def configOk (env : Env) : Bool :=
  pyTruthy env.CLUSTER_NAME && pyTruthy env.NODEGROUP_NAME && !(regionOf env == "")

/-- The `except ClientError` branch: map the error code to a result,
exactly as the handler's final `except ClientError as e:` block does. -/
def clientErrorResult (cluster_name nodegroup_name : String) (e : ClientErr) : LambdaResult :=
  if e.code == "ResourceNotFoundException" then
    { statusCode := 404
      body := Body.str ("Cluster " ++ cluster_name ++ " or node group " ++ nodegroup_name ++ " not found") }
  else if e.code == "InvalidParameterException" then
    { statusCode := 400, body := Body.str ("Invalid parameters: " ++ e.message) }
  else
    { statusCode := 500, body := Body.str ("Error updating node group: " ++ e.message) }

/-- The `except Exception` catch-all branch. -/
def unexpectedErrorResult (msg : String) : LambdaResult :=
  { statusCode := 500, body := Body.str ("Unexpected error: " ++ msg) }

/-- Shallow embedding of `lambda_handler(event, context)`. The `event`
and `context` parameters are ignored by the source, so they are not
modelled. Returns the structured result and the trace of issued
remote calls. -/
def lambda_handler (env : Env) (w : World) : LambdaResult × Trace :=
  if configOk env then
    let cluster_name := env.CLUSTER_NAME.getD ""
    let nodegroup_name := env.NODEGROUP_NAME.getD ""
    let region := regionOf env
    match w.describe with
    | DescribeResult.clientError e =>
        (clientErrorResult cluster_name nodegroup_name e,
         { describeCalled := true, ssmCalled := false, updateCalls := [], regionUsed := some region })
    | DescribeResult.otherError m =>
        (unexpectedErrorResult m,
         { describeCalled := true, ssmCalled := false, updateCalls := [], regionUsed := some region })
    | DescribeResult.ok ng =>
        let current_k8s_version := ng.version
        let current_release_version := ng.releaseVersion.getD "unknown"
        match w.lookup with
        | SsmResult.parameterNotFound =>
            ({ statusCode := 400
               body := Body.str ("No AMI found for Kubernetes version " ++ current_k8s_version) },
             { describeCalled := true, ssmCalled := true, updateCalls := [], regionUsed := some region })
        | SsmResult.clientError e =>
            (clientErrorResult cluster_name nodegroup_name e,
             { describeCalled := true, ssmCalled := true, updateCalls := [], regionUsed := some region })
        | SsmResult.otherError m =>
            (unexpectedErrorResult m,
             { describeCalled := true, ssmCalled := true, updateCalls := [], regionUsed := some region })
        | SsmResult.ok latest_release_version =>
            if current_release_version == latest_release_version then
              ({ statusCode := 200, body := Body.str "Node group is up to date" },
               { describeCalled := true, ssmCalled := true, updateCalls := [], regionUsed := some region })
            else
              let args : UpdateArgs :=
                { clusterName := cluster_name
                  nodegroupName := nodegroup_name
                  releaseVersion := latest_release_version
                  force := false
                  kubernetesVersion := none }
              match w.update with
              | UpdateResult.ok update_id =>
                  ({ statusCode := 200
                     body := Body.obj
                       ("Node group update initiated to AMI release version " ++ latest_release_version)
                       update_id },
                   { describeCalled := true, ssmCalled := true, updateCalls := [args], regionUsed := some region })
              | UpdateResult.clientError e =>
                  (clientErrorResult cluster_name nodegroup_name e,
                   { describeCalled := true, ssmCalled := true, updateCalls := [args], regionUsed := some region })
              | UpdateResult.otherError m =>
                  (unexpectedErrorResult m,
                   { describeCalled := true, ssmCalled := true, updateCalls := [args], regionUsed := some region })
  else
    ({ statusCode := 400, body := Body.str "Missing required environment variables" },
     { describeCalled := false, ssmCalled := false, updateCalls := [], regionUsed := none })

/-- Sample environment with all three variables set; used by witnesses. -/
def envW : Env :=
  { CLUSTER_NAME := some "my-eks-cluster"
    NODEGROUP_NAME := some "my-eks-nodegroup"
    AWS_REGION := some "us-west-2" }

/-- Sample world where all three calls succeed and the versions differ;
used by witnesses. -/
def wUpd : World :=
  { describe := DescribeResult.ok { version := "1.26", releaseVersion := some "1.26.12-20240307" }
    lookup := SsmResult.ok "1.26.12-20240329"
    update := UpdateResult.ok "update-123" }

/-- C1: an `update_nodegroup_version` call is issued if and only if the
configuration check passes, the describe call and the SSM lookup both
succeed, and the fetched current release version differs from the
fetched recommended version; and at most one update call is issued per
invocation. In particular no update is issued when the describe call or
the registry lookup fails before the comparison. -/
theorem update_iff_versions_differ (env : Env) (w : World) :
    (lambda_handler env w).2.updateCalls.length ≤ 1 ∧
    ((lambda_handler env w).2.updateCalls ≠ [] ↔
      configOk env = true ∧
      ∃ ng, w.describe = DescribeResult.ok ng ∧
        ∃ v, w.lookup = SsmResult.ok v ∧ ng.releaseVersion.getD "unknown" ≠ v) := by
  obtain ⟨d, l, u⟩ := w
  by_cases hc : configOk env = true
  · cases d with
    | clientError e => simp [lambda_handler, hc]
    | otherError m => simp [lambda_handler, hc]
    | ok ng =>
      cases l with
      | parameterNotFound => simp [lambda_handler, hc]
      | clientError e => simp [lambda_handler, hc]
      | otherError m => simp [lambda_handler, hc]
      | ok v =>
        by_cases hv : ng.releaseVersion.getD "unknown" = v
        · cases u <;> simp [lambda_handler, hc, hv]
        · cases u <;> simp [lambda_handler, hc, hv]
  · simp [lambda_handler, hc]

/-- C2: when the configuration check passes, describe and SSM lookup
succeed, the versions differ, and the update call succeeds, exactly one
`update_nodegroup_version` call is issued — with `force=False` and
without a Kubernetes-version argument — and the result is status 200
with a body carrying the update id the call returned together with the
target release version. -/
theorem updateInitiated_correct (env : Env) (w : World) (ng : Nodegroup) (v uid : String)
    (hc : configOk env = true)
    (hd : w.describe = DescribeResult.ok ng)
    (hl : w.lookup = SsmResult.ok v)
    (hne : ng.releaseVersion.getD "unknown" ≠ v)
    (hu : w.update = UpdateResult.ok uid) :
    (lambda_handler env w).2.updateCalls =
      [{ clusterName := env.CLUSTER_NAME.getD ""
         nodegroupName := env.NODEGROUP_NAME.getD ""
         releaseVersion := v
         force := false
         kubernetesVersion := none }] ∧
    (lambda_handler env w).1 =
      { statusCode := 200
        body := Body.obj ("Node group update initiated to AMI release version " ++ v) uid } := by
  obtain ⟨d, l, u⟩ := w
  simp only at hd hl hu
  subst hd hl hu
  simp [lambda_handler, hc, hne]

/-- C2 witness: a concrete run in which the versions differ and all
calls succeed. -/
theorem updateInitiated_correct_witness :
    configOk envW = true ∧
    (some "1.26.12-20240307" : Option String).getD "unknown" ≠ "1.26.12-20240329" ∧
    ((lambda_handler envW wUpd).2.updateCalls =
      [{ clusterName := envW.CLUSTER_NAME.getD ""
         nodegroupName := envW.NODEGROUP_NAME.getD ""
         releaseVersion := "1.26.12-20240329"
         force := false
         kubernetesVersion := none }] ∧
     (lambda_handler envW wUpd).1 =
      { statusCode := 200
        body := Body.obj ("Node group update initiated to AMI release version " ++ "1.26.12-20240329")
          "update-123" }) :=
  ⟨by decide, by decide,
   updateInitiated_correct envW wUpd
     { version := "1.26", releaseVersion := some "1.26.12-20240307" }
     "1.26.12-20240329" "update-123" (by decide) rfl rfl (by decide) rfl⟩

/-- C3: when the configuration check passes, describe and SSM lookup
succeed, and the fetched current release version equals the fetched
recommended version under exact string equality, the result is status
200 with body 'Node group is up to date' and no update call is issued. -/
theorem upToDate_correct (env : Env) (w : World) (ng : Nodegroup) (v : String)
    (hc : configOk env = true)
    (hd : w.describe = DescribeResult.ok ng)
    (hl : w.lookup = SsmResult.ok v)
    (heq : ng.releaseVersion.getD "unknown" = v) :
    (lambda_handler env w).1 = { statusCode := 200, body := Body.str "Node group is up to date" } ∧
    (lambda_handler env w).2.updateCalls = [] := by
  obtain ⟨d, l, u⟩ := w
  simp only at hd hl
  subst hd hl
  simp [lambda_handler, hc, heq]

/-- C3 witness: a concrete run in which the current and recommended
versions are the same string. -/
theorem upToDate_correct_witness :
    configOk envW = true ∧
    (some "1.26.12-20240329" : Option String).getD "unknown" = "1.26.12-20240329" ∧
    ((lambda_handler envW
        { describe := DescribeResult.ok { version := "1.26", releaseVersion := some "1.26.12-20240329" }
          lookup := SsmResult.ok "1.26.12-20240329"
          update := UpdateResult.ok "update-123" }).1 =
      { statusCode := 200, body := Body.str "Node group is up to date" } ∧
     (lambda_handler envW
        { describe := DescribeResult.ok { version := "1.26", releaseVersion := some "1.26.12-20240329" }
          lookup := SsmResult.ok "1.26.12-20240329"
          update := UpdateResult.ok "update-123" }).2.updateCalls = []) :=
  ⟨by decide, by decide,
   upToDate_correct envW
     { describe := DescribeResult.ok { version := "1.26", releaseVersion := some "1.26.12-20240329" }
       lookup := SsmResult.ok "1.26.12-20240329"
       update := UpdateResult.ok "update-123" }
     { version := "1.26", releaseVersion := some "1.26.12-20240329" }
     "1.26.12-20240329" (by decide) rfl rfl (by decide)⟩

/-- C4: when the cluster identifier or the node-group identifier is
unset, the result is status 400 with the missing-variables body and no
remote call of any kind is issued (no clients are even initialized). -/
theorem configInvalid_no_calls (env : Env) (w : World)
    (h : env.CLUSTER_NAME = none ∨ env.NODEGROUP_NAME = none) :
    (lambda_handler env w).1 =
      { statusCode := 400, body := Body.str "Missing required environment variables" } ∧
    (lambda_handler env w).2 =
      { describeCalled := false, ssmCalled := false, updateCalls := [], regionUsed := none } := by
  have hc : configOk env = false := by
    rcases h with h | h <;> simp [configOk, pyTruthy, h]
  simp [lambda_handler, hc]

/-- C4 witness: a concrete configuration with the cluster identifier
unset. -/
theorem configInvalid_no_calls_witness :
    ((Env.mk none (some "my-eks-nodegroup") (some "us-west-2")).CLUSTER_NAME = none ∨
     (Env.mk none (some "my-eks-nodegroup") (some "us-west-2")).NODEGROUP_NAME = none) ∧
    ((lambda_handler (Env.mk none (some "my-eks-nodegroup") (some "us-west-2")) wUpd).1 =
      { statusCode := 400, body := Body.str "Missing required environment variables" } ∧
     (lambda_handler (Env.mk none (some "my-eks-nodegroup") (some "us-west-2")) wUpd).2 =
      { describeCalled := false, ssmCalled := false, updateCalls := [], regionUsed := none }) :=
  ⟨Or.inl rfl,
   configInvalid_no_calls (Env.mk none (some "my-eks-nodegroup") (some "us-west-2")) wUpd (Or.inl rfl)⟩

/-- C5: when the configuration check passes and the describe call fails
with `ResourceNotFoundException`, the result is status 404 with a body
naming the cluster and node group, and no update call is issued. -/
theorem notFound_on_describe (env : Env) (w : World) (m : String)
    (hc : configOk env = true)
    (hd : w.describe = DescribeResult.clientError { code := "ResourceNotFoundException", message := m }) :
    (lambda_handler env w).1 =
      { statusCode := 404
        body := Body.str ("Cluster " ++ env.CLUSTER_NAME.getD "" ++ " or node group " ++
          env.NODEGROUP_NAME.getD "" ++ " not found") } ∧
    (lambda_handler env w).2.updateCalls = [] := by
  obtain ⟨d, l, u⟩ := w
  simp only at hd
  subst hd
  simp [lambda_handler, hc, clientErrorResult]

/-- C5 witness: a concrete run in which the describe call reports the
cluster or node group missing. -/
theorem notFound_on_describe_witness :
    configOk envW = true ∧
    ((lambda_handler envW
        { describe := DescribeResult.clientError
            { code := "ResourceNotFoundException", message := "no such nodegroup" }
          lookup := SsmResult.ok "1.26.12-20240329"
          update := UpdateResult.ok "update-123" }).1 =
      { statusCode := 404
        body := Body.str ("Cluster " ++ envW.CLUSTER_NAME.getD "" ++ " or node group " ++
          envW.NODEGROUP_NAME.getD "" ++ " not found") } ∧
     (lambda_handler envW
        { describe := DescribeResult.clientError
            { code := "ResourceNotFoundException", message := "no such nodegroup" }
          lookup := SsmResult.ok "1.26.12-20240329"
          update := UpdateResult.ok "update-123" }).2.updateCalls = []) :=
  ⟨by decide,
   notFound_on_describe envW
     { describe := DescribeResult.clientError
         { code := "ResourceNotFoundException", message := "no such nodegroup" }
       lookup := SsmResult.ok "1.26.12-20240329"
       update := UpdateResult.ok "update-123" }
     "no such nodegroup" (by decide) rfl⟩

/-- C6: when the configuration check passes, describe succeeds, and the
SSM parameter for the node group's Kubernetes version does not exist,
the result is status 400 with a body naming that Kubernetes version,
and no update call is issued. -/
theorem unsupported_version (env : Env) (w : World) (ng : Nodegroup)
    (hc : configOk env = true)
    (hd : w.describe = DescribeResult.ok ng)
    (hl : w.lookup = SsmResult.parameterNotFound) :
    (lambda_handler env w).1 =
      { statusCode := 400
        body := Body.str ("No AMI found for Kubernetes version " ++ ng.version) } ∧
    (lambda_handler env w).2.updateCalls = [] := by
  obtain ⟨d, l, u⟩ := w
  simp only at hd hl
  subst hd hl
  simp [lambda_handler, hc]

/-- C6 witness: a concrete run in which the recommended-version lookup
finds no entry. -/
theorem unsupported_version_witness :
    configOk envW = true ∧
    ((lambda_handler envW
        { describe := DescribeResult.ok { version := "1.12", releaseVersion := some "1.12.7-20190329" }
          lookup := SsmResult.parameterNotFound
          update := UpdateResult.ok "update-123" }).1 =
      { statusCode := 400
        body := Body.str ("No AMI found for Kubernetes version " ++ "1.12") } ∧
     (lambda_handler envW
        { describe := DescribeResult.ok { version := "1.12", releaseVersion := some "1.12.7-20190329" }
          lookup := SsmResult.parameterNotFound
          update := UpdateResult.ok "update-123" }).2.updateCalls = []) :=
  ⟨by decide,
   unsupported_version envW
     { describe := DescribeResult.ok { version := "1.12", releaseVersion := some "1.12.7-20190329" }
       lookup := SsmResult.parameterNotFound
       update := UpdateResult.ok "update-123" }
     { version := "1.12", releaseVersion := some "1.12.7-20190329" } (by decide) rfl rfl⟩

/-- C7: the handler always returns a structured result with one of the
status codes 200, 400, 404 or 500; a `ClientError` whose code is
neither `ResourceNotFoundException` nor `InvalidParameterException` is
converted to the 500 result, and a non-`ClientError` exception is
converted to the 500 catch-all result — no failure escapes the
handler's boundary. -/
theorem errors_classified (env : Env) (w : World) (e : ClientErr) (m : String)
    (hc : configOk env = true)
    (h1 : e.code ≠ "ResourceNotFoundException")
    (h2 : e.code ≠ "InvalidParameterException") :
    ((lambda_handler env w).1.statusCode = 200 ∨ (lambda_handler env w).1.statusCode = 400 ∨
     (lambda_handler env w).1.statusCode = 404 ∨ (lambda_handler env w).1.statusCode = 500) ∧
    (lambda_handler env
      { describe := DescribeResult.clientError e, lookup := w.lookup, update := w.update }).1.statusCode
      = 500 ∧
    (lambda_handler env
      { describe := DescribeResult.otherError m, lookup := w.lookup, update := w.update }).1.statusCode
      = 500 := by
  have hcer : ∀ cn ngn : String,
      (clientErrorResult cn ngn e).statusCode = 500 := by
    intro cn ngn
    simp [clientErrorResult, h1, h2]
  refine ⟨?_, by simp [lambda_handler, hc, hcer], by simp [lambda_handler, hc, unexpectedErrorResult]⟩
  obtain ⟨d, l, u⟩ := w
  have htot : ∀ cn ngn : String, ∀ e' : ClientErr,
      (clientErrorResult cn ngn e').statusCode = 404 ∨
      (clientErrorResult cn ngn e').statusCode = 400 ∨
      (clientErrorResult cn ngn e').statusCode = 500 := by
    intro cn ngn e'
    unfold clientErrorResult
    split
    · exact Or.inl rfl
    · split
      · exact Or.inr (Or.inl rfl)
      · exact Or.inr (Or.inr rfl)
  cases d with
  | clientError e' =>
    rcases htot (env.CLUSTER_NAME.getD "") (env.NODEGROUP_NAME.getD "") e' with h | h | h <;>
      simp [lambda_handler, hc, h]
  | otherError m' => simp [lambda_handler, hc, unexpectedErrorResult]
  | ok ng =>
    cases l with
    | parameterNotFound => simp [lambda_handler, hc]
    | clientError e' =>
      rcases htot (env.CLUSTER_NAME.getD "") (env.NODEGROUP_NAME.getD "") e' with h | h | h <;>
        simp [lambda_handler, hc, h]
    | otherError m' => simp [lambda_handler, hc, unexpectedErrorResult]
    | ok v =>
      by_cases hv : ng.releaseVersion.getD "unknown" = v
      · simp [lambda_handler, hc, hv]
      · cases u with
        | ok uid => simp [lambda_handler, hc, hv]
        | clientError e' =>
          rcases htot (env.CLUSTER_NAME.getD "") (env.NODEGROUP_NAME.getD "") e' with h | h | h <;>
            simp [lambda_handler, hc, hv, h]
        | otherError m' => simp [lambda_handler, hc, hv, unexpectedErrorResult]

/-- C7 witness: a concrete run with an unclassified `ClientError` code
and a concrete generic exception message. -/
theorem errors_classified_witness :
    configOk envW = true ∧
    ("ThrottlingException" : String) ≠ "ResourceNotFoundException" ∧
    ("ThrottlingException" : String) ≠ "InvalidParameterException" ∧
    (((lambda_handler envW wUpd).1.statusCode = 200 ∨ (lambda_handler envW wUpd).1.statusCode = 400 ∨
      (lambda_handler envW wUpd).1.statusCode = 404 ∨ (lambda_handler envW wUpd).1.statusCode = 500) ∧
     (lambda_handler envW
       { describe := DescribeResult.clientError { code := "ThrottlingException", message := "slow down" }
         lookup := wUpd.lookup, update := wUpd.update }).1.statusCode = 500 ∧
     (lambda_handler envW
       { describe := DescribeResult.otherError "KeyError"
         lookup := wUpd.lookup, update := wUpd.update }).1.statusCode = 500) :=
  ⟨by decide, by decide, by decide,
   errors_classified envW wUpd { code := "ThrottlingException", message := "slow down" } "KeyError"
     (by decide) (by decide) (by decide)⟩

/-- C8 counterexample: with only `CLUSTER_NAME` unset, the 400 body is
the fixed string 'Missing required environment variables', which does
not contain the name of the missing field; moreover the body is the
same when instead only `NODEGROUP_NAME` is unset, so the payload cannot
identify which fields are missing. -/
theorem configInvalid_body_counterexample :
    (Env.mk none (some "my-eks-nodegroup") (some "us-west-2")).CLUSTER_NAME = none ∧
    (lambda_handler (Env.mk none (some "my-eks-nodegroup") (some "us-west-2")) wUpd).1.body =
      Body.str "Missing required environment variables" ∧
    ¬ ("CLUSTER_NAME".data <:+: "Missing required environment variables".data) ∧
    (lambda_handler (Env.mk none (some "my-eks-nodegroup") (some "us-west-2")) wUpd).1.body =
      (lambda_handler (Env.mk (some "my-eks-cluster") none (some "us-west-2")) wUpd).1.body :=
  ⟨rfl, by decide, by decide, by decide⟩

/-- C8 amended: when a required configuration value (cluster or
node-group identifier) is absent, the 400 payload is the fixed message
'Missing required environment variables'; the names of the missing
fields appear only in the log, not in the payload. -/
theorem configInvalid_fixed_body (env : Env) (w : World)
    (h : env.CLUSTER_NAME = none ∨ env.NODEGROUP_NAME = none) :
    (lambda_handler env w).1.body = Body.str "Missing required environment variables" := by
  have hc : configOk env = false := by
    rcases h with h | h <;> simp [configOk, pyTruthy, h]
  simp [lambda_handler, hc]

/-- C8 amended witness: a concrete configuration with the node-group
identifier unset. -/
theorem configInvalid_fixed_body_witness :
    ((Env.mk (some "my-eks-cluster") none (some "us-west-2")).CLUSTER_NAME = none ∨
     (Env.mk (some "my-eks-cluster") none (some "us-west-2")).NODEGROUP_NAME = none) ∧
    (lambda_handler (Env.mk (some "my-eks-cluster") none (some "us-west-2")) wUpd).1.body =
      Body.str "Missing required environment variables" :=
  ⟨Or.inr rfl,
   configInvalid_fixed_body (Env.mk (some "my-eks-cluster") none (some "us-west-2")) wUpd (Or.inr rfl)⟩

/-- C9: when `AWS_REGION` is unset and the other two variables are
truthy, the fixed fallback region is substituted before the
required-fields check: the check passes (so an absent region never
yields the 400 missing-variables outcome), the invocation behaves
exactly as if `AWS_REGION` were set to 'us-west-2', and the clients
are initialized with the fallback region. -/
theorem region_defaulted (env : Env) (w : World)
    (hr : env.AWS_REGION = none)
    (hcl : pyTruthy env.CLUSTER_NAME = true)
    (hng : pyTruthy env.NODEGROUP_NAME = true) :
    configOk env = true ∧
    lambda_handler env w = lambda_handler { env with AWS_REGION := some "us-west-2" } w ∧
    (lambda_handler env w).2.regionUsed = some "us-west-2" ∧
    (lambda_handler env w).2.describeCalled = true := by
  have hc : configOk env = true := by
    simp [configOk, hcl, hng, regionOf, hr]
  have hreg : regionOf env = "us-west-2" := by simp [regionOf, hr]
  have key : (lambda_handler env w).2.regionUsed = some (regionOf env) ∧
      (lambda_handler env w).2.describeCalled = true := by
    obtain ⟨d, l, u⟩ := w
    cases d with
    | clientError e => simp [lambda_handler, hc]
    | otherError m => simp [lambda_handler, hc]
    | ok ng =>
      cases l with
      | parameterNotFound => simp [lambda_handler, hc]
      | clientError e => simp [lambda_handler, hc]
      | otherError m => simp [lambda_handler, hc]
      | ok v =>
        by_cases hv : ng.releaseVersion.getD "unknown" = v
        · simp [lambda_handler, hc, hv]
        · cases u <;> simp [lambda_handler, hc, hv]
  refine ⟨hc, ?_, by rw [key.1, hreg], key.2⟩
  obtain ⟨c, n, r⟩ := env
  simp only at hr
  subst hr
  rfl

/-- C9 witness: a concrete configuration with the region unset. -/
theorem region_defaulted_witness :
    (Env.mk (some "my-eks-cluster") (some "my-eks-nodegroup") none).AWS_REGION = none ∧
    pyTruthy (Env.mk (some "my-eks-cluster") (some "my-eks-nodegroup") none).CLUSTER_NAME = true ∧
    pyTruthy (Env.mk (some "my-eks-cluster") (some "my-eks-nodegroup") none).NODEGROUP_NAME = true ∧
    (configOk (Env.mk (some "my-eks-cluster") (some "my-eks-nodegroup") none) = true ∧
     lambda_handler (Env.mk (some "my-eks-cluster") (some "my-eks-nodegroup") none) wUpd =
       lambda_handler
         { Env.mk (some "my-eks-cluster") (some "my-eks-nodegroup") none with
             AWS_REGION := some "us-west-2" } wUpd ∧
     (lambda_handler (Env.mk (some "my-eks-cluster") (some "my-eks-nodegroup") none) wUpd).2.regionUsed
       = some "us-west-2" ∧
     (lambda_handler (Env.mk (some "my-eks-cluster") (some "my-eks-nodegroup") none)
       wUpd).2.describeCalled = true) :=
  ⟨rfl, by decide, by decide,
   region_defaulted (Env.mk (some "my-eks-cluster") (some "my-eks-nodegroup") none) wUpd
     rfl (by decide) (by decide)⟩

/-- C10: when the describe response carries no `releaseVersion` field,
the current release version is the literal string 'unknown'; with a
successful lookup returning a recommended version other than 'unknown',
the comparison (exact string equality) necessarily differs and an
update call targeting the recommended version is issued. -/
theorem unknown_release_updates (env : Env) (w : World) (ng : Nodegroup) (v : String)
    (hc : configOk env = true)
    (hng : ng.releaseVersion = none)
    (hd : w.describe = DescribeResult.ok ng)
    (hl : w.lookup = SsmResult.ok v)
    (hv : v ≠ "unknown") :
    ng.releaseVersion.getD "unknown" = "unknown" ∧
    (lambda_handler env w).2.updateCalls =
      [{ clusterName := env.CLUSTER_NAME.getD ""
         nodegroupName := env.NODEGROUP_NAME.getD ""
         releaseVersion := v
         force := false
         kubernetesVersion := none }] := by
  obtain ⟨d, l, u⟩ := w
  simp only at hd hl
  subst hd hl
  have h1 : ng.releaseVersion.getD "unknown" = "unknown" := by
    simp only [hng, Option.getD_none]
  have hv2 : ng.releaseVersion.getD "unknown" ≠ v := by
    rw [h1]
    exact fun h => hv h.symm
  exact ⟨h1, by cases u <;> simp [lambda_handler, hc, hv2]⟩

/-- C10 witness: a concrete run in which the describe response has no
release-version field. -/
theorem unknown_release_updates_witness :
    configOk envW = true ∧
    (Nodegroup.mk "1.26" none).releaseVersion = none ∧
    ("1.26.12-20240329" : String) ≠ "unknown" ∧
    ((Nodegroup.mk "1.26" none).releaseVersion.getD "unknown" = "unknown" ∧
     (lambda_handler envW
        { describe := DescribeResult.ok (Nodegroup.mk "1.26" none)
          lookup := SsmResult.ok "1.26.12-20240329"
          update := UpdateResult.ok "update-123" }).2.updateCalls =
       [{ clusterName := envW.CLUSTER_NAME.getD ""
          nodegroupName := envW.NODEGROUP_NAME.getD ""
          releaseVersion := "1.26.12-20240329"
          force := false
          kubernetesVersion := none }]) :=
  ⟨by decide, rfl, by decide,
   unknown_release_updates envW
     { describe := DescribeResult.ok (Nodegroup.mk "1.26" none)
       lookup := SsmResult.ok "1.26.12-20240329"
       update := UpdateResult.ok "update-123" }
     (Nodegroup.mk "1.26" none) "1.26.12-20240329" (by decide) rfl rfl rfl (by decide)⟩
